import Mathlib

/-!
Verification development for the streaming-CAT off-chain driver
(src/layer.rs and src/streamed_cat.rs).

Modelling conventions:
* 32-byte values and CLVM tree hashes are modelled by the free term algebra
  `THash`; constructor injectivity models collision resistance of sha256
  tree hashing.  Distinguished template hashes (the stream puzzle, the CAT
  puzzle) are `THash.raw` constants.
* Rust `u64` arithmetic is modelled on `Nat` with explicit wrapping
  (`% U64`, `wsub`), matching release-mode wrap-around semantics; in debug
  builds the same out-of-range operations panic, so any result reached
  through wrapping is unreachable as a normal value there as well.
* CLVM puzzle reveals are modelled by the `Node` tree restricted to the
  shapes the driver distinguishes (atoms, opaque programs, 2- and 3-argument
  curried programs).  Running a puzzle (`run_puzzle`, an external collaborator
  of this crate) is modelled by supplying its condition output alongside the
  solution in `SpendData`.
-/

namespace Streaming

/-- Size of the u64 value space (2^64); Rust u64 arithmetic wraps modulo this
in release builds. -/
def U64 : Nat := 18446744073709551616

/-- Wrapping u64 subtraction, modelling Rust release-mode `a - b` on u64
values below 2^64. -/
def wsub (a b : Nat) : Nat := (a + U64 - b % U64) % U64

/-- Symbolic 32-byte values / CLVM tree hashes: a free, collision-free model
of the sha256 tree-hash commitment scheme of spec section 4.1. -/
inductive THash where
  | raw (tag : Nat) : THash
  | natAtom (v : Nat) : THash
  | bytesAtom (h : THash) : THash
  | pair (l r : THash) : THash
  | coinIdH (parent puzzleHash : THash) (amount : Nat) : THash
deriving DecidableEq

/-- Tree hash of the quoted form (q . x) of a subtree inside a curried
program (q is opcode 1). -/
def qt (h : THash) : THash := .pair (.natAtom 1) h

/-- Tree hash of the curried-argument chain (c (q . a1) (c (q . a2) ... 1))
(c is opcode 4, nil is the empty atom / integer 0). -/
def cChain : List THash → THash
  | [] => .natAtom 1
  | h :: t => .pair (.natAtom 4) (.pair (qt h) (.pair (cChain t) (.natAtom 0)))

/-- Tree hash of curry(mod, args) = (a (q . mod) (c (q . a1) ... 1))
(a is opcode 2); models clvm_utils CurriedProgram tree_hash. -/
def curryTreeHash (m : THash) (args : List THash) : THash :=
  .pair (.natAtom 2) (.pair (qt m) (.pair (cChain args) (.natAtom 0)))

/-- Tree hash of the stream puzzle bytecode (layer.rs STREAM_PUZZLE_HASH),
an opaque constant in the symbolic model. -/
def STREAM_PUZZLE_HASH : THash := .raw 0

/-- Tree hash of the CAT outer puzzle (external chia puzzle), an opaque
constant in the symbolic model. -/
def CAT_PUZZLE_HASH : THash := .raw 1

/-- Tree-hash contribution of an Option Bytes32 curry argument: None is the
empty atom (nil, the integer 0), Some is a 32-byte atom.  streamed_cat.rs
passes the clawback puzzle hash as Option of Bytes32; the empty atom encodes
the absent case. -/
def optHash : Option THash → THash
  | none => .natAtom 0
  | some h => .bytesAtom h

/-- The inner stream layer (layer.rs StreamLayer): immutable recipient,
optional clawback puzzle hash and end time, plus the mutable last payment
time. -/
structure StreamLayer where
  recipient : THash
  clawback_ph : Option THash
  end_time : Nat
  last_payment_time : Nat
deriving DecidableEq

/-- First-stage curry commitment h1 (layer.rs
StreamPuzzle1stCurryArgs::curry_tree_hash): binds the immutable parameters
to the stream template. -/
def firstCurryHash (recipient : THash) (clawback_ph : Option THash)
    (end_time : Nat) : THash :=
  curryTreeHash STREAM_PUZZLE_HASH
    [.bytesAtom recipient, optHash clawback_ph, .natAtom end_time]

/-- Second-stage curry commitment h2 (layer.rs
StreamPuzzle2ndCurryArgs::curry_tree_hash / StreamLayer::puzzle_hash):
curries h1 and the mutable last payment time into h1 itself. -/
def StreamLayer.puzzle_hash (l : StreamLayer) : THash :=
  curryTreeHash (firstCurryHash l.recipient l.clawback_ph l.end_time)
    [.bytesAtom (firstCurryHash l.recipient l.clawback_ph l.end_time),
     .natAtom l.last_payment_time]

/-- Model of chia CatArgs::curry_tree_hash: the CAT outer puzzle curried
with its own mod hash, the asset id and the inner puzzle. -/
def catCurryTreeHash (asset_id inner_puzzle_hash : THash) : THash :=
  curryTreeHash CAT_PUZZLE_HASH
    [.bytesAtom CAT_PUZZLE_HASH, .bytesAtom asset_id, inner_puzzle_hash]

/-- A ledger coin (chia_protocol Coin). -/
structure Coin where
  parent_coin_info : THash
  puzzle_hash : THash
  amount : Nat
deriving DecidableEq

/-- Coin identity: hash of the three coin fields, an opaque ledger
primitive. -/
def Coin.coin_id (c : Coin) : THash :=
  .coinIdH c.parent_coin_info c.puzzle_hash c.amount

/-- Lineage proof authorizing a CAT-layer spend (chia puzzles
LineageProof). -/
structure LineageProof where
  parent_parent_coin_info : THash
  parent_inner_puzzle_hash : THash
  parent_amount : Nat
deriving DecidableEq

/-- The streamed CAT state (streamed_cat.rs StreamedCat). -/
structure StreamedCat where
  coin : Coin
  asset_id : THash
  proof : LineageProof
  inner_puzzle_hash : THash
  recipient : THash
  clawback_ph : Option THash
  end_time : Nat
  last_payment_time : Nat
deriving DecidableEq

/-- streamed_cat.rs StreamedCat::new: derives the inner puzzle hash from the
stream layer fields. -/
def StreamedCat.new (coin : Coin) (asset_id : THash) (proof : LineageProof)
    (recipient : THash) (clawback_ph : Option THash)
    (end_time last_payment_time : Nat) : StreamedCat :=
  { coin := coin, asset_id := asset_id, proof := proof,
    inner_puzzle_hash :=
      (StreamLayer.mk recipient clawback_ph end_time
        last_payment_time).puzzle_hash,
    recipient := recipient, clawback_ph := clawback_ph,
    end_time := end_time, last_payment_time := last_payment_time }

/-- The stream layer carried by a StreamedCat. -/
def StreamedCat.layer (s : StreamedCat) : StreamLayer :=
  StreamLayer.mk s.recipient s.clawback_ph s.end_time s.last_payment_time

/-- Well-formedness: all u64-typed fields of the Rust struct are in u64
range. -/
def StreamedCat.WF (s : StreamedCat) : Prop :=
  s.coin.amount < U64 ∧ s.end_time < U64 ∧ s.last_payment_time < U64

/-- streamed_cat.rs StreamedCat::amount_to_be_paid:
coin.amount * (payment_time - last_payment_time)
  / (end_time - last_payment_time), in wrapping u64 arithmetic. -/
def StreamedCat.amount_to_be_paid (s : StreamedCat) (payment_time : Nat) :
    Nat :=
  s.coin.amount * wsub payment_time s.last_payment_time % U64
    / wsub s.end_time s.last_payment_time

/-- The exact linear-vesting formula of spec section 4.3, over unbounded
integers with floor division (matching the external contract's
arbitrary-precision arithmetic). -/
def specVestingFormula (amount last_payment_time end_time at_time : Nat) :
    Nat :=
  amount * (at_time - last_payment_time) / (end_time - last_payment_time)

/-- The claim-time clamp performed by the main.rs claim command before
calling amount_to_be_paid: min(latest_timestamp - 1, end_time). -/
def clampedClaimTime (latest_timestamp end_time : Nat) : Nat :=
  if latest_timestamp - 1 ≤ end_time then latest_timestamp - 1 else end_time

/-- The inner stream puzzle solution (layer.rs StreamPuzzleSolution). -/
structure StreamPuzzleSolution where
  my_amount : Nat
  payment_time : Nat
  to_pay : Nat
  clawback : Bool
deriving DecidableEq

/-- chia puzzles CoinProof. -/
structure CoinProof where
  parent_coin_info : THash
  inner_puzzle_hash : THash
  amount : Nat
deriving DecidableEq

/-- The CAT-layer solution wrapping a stream puzzle solution (chia puzzles
CatSolution, specialized as in streamed_cat.rs). -/
structure CatSolution where
  inner_puzzle_solution : StreamPuzzleSolution
  lineage_proof : Option LineageProof
  prev_coin_id : THash
  this_coin_info : Coin
  next_coin_proof : CoinProof
  prev_subtotal : Int
  extra_delta : Int
deriving DecidableEq

/-- streamed_cat.rs StreamedCat::construct_solution. -/
def StreamedCat.construct_solution (s : StreamedCat) (payment_time : Nat)
    (clawback : Bool) : CatSolution :=
  { inner_puzzle_solution :=
      { my_amount := s.coin.amount
        payment_time := payment_time
        to_pay := s.amount_to_be_paid payment_time
        clawback := clawback }
    lineage_proof := some s.proof
    prev_coin_id := s.coin.coin_id
    this_coin_info := s.coin
    next_coin_proof :=
      { parent_coin_info := s.coin.parent_coin_info
        inner_puzzle_hash := s.inner_puzzle_hash
        amount := s.coin.amount }
    prev_subtotal := 0
    extra_delta := 0 }

/-- CLVM puzzle reveals, restricted to the shapes the driver distinguishes:
32-byte atoms, integer atoms, opaque programs (tree hash `THash.raw tag`),
and recognized curried programs with two or three arguments. -/
inductive Node where
  | b32 (h : THash) : Node
  | num (v : Nat) : Node
  | prog (tag : Nat) : Node
  | curried2 (p a1 a2 : Node) : Node
  | curried3 (p a1 a2 a3 : Node) : Node
deriving DecidableEq

/-- CLVM tree hash of a puzzle reveal. -/
def Node.treeHash : Node → THash
  | .b32 h => .bytesAtom h
  | .num v => .natAtom v
  | .prog tag => .raw tag
  | .curried2 p a1 a2 => curryTreeHash p.treeHash [a1.treeHash, a2.treeHash]
  | .curried3 p a1 a2 a3 =>
    curryTreeHash p.treeHash [a1.treeHash, a2.treeHash, a3.treeHash]

/-- Encoding of an Option Bytes32 as a curry argument node (None is nil,
the empty atom, i.e. the integer 0). -/
def optNode : Option THash → Node
  | none => .num 0
  | some h => .b32 h

/-- The two-stage curried stream puzzle built by layer.rs
StreamLayer::construct_puzzle. -/
def streamPuzzleNode (l : StreamLayer) : Node :=
  .curried2
    (.curried3 (.prog 0) (.b32 l.recipient) (optNode l.clawback_ph)
      (.num l.end_time))
    (.b32 (firstCurryHash l.recipient l.clawback_ph l.end_time))
    (.num l.last_payment_time)

/-- A CAT outer puzzle currying an inner puzzle (external chia CAT puzzle,
as built by CatLayer::construct_puzzle). -/
def catPuzzleNode (asset_id : THash) (inner : Node) : Node :=
  .curried3 (.prog 1) (.b32 CAT_PUZZLE_HASH) (.b32 asset_id) inner

/-- streamed_cat.rs StreamedCat::construct_puzzle: the CAT layer wrapping
the stream layer. -/
def StreamedCat.construct_puzzle (s : StreamedCat) : Node :=
  catPuzzleNode s.asset_id (streamPuzzleNode s.layer)

/-- Driver error taxonomy (chia_wallet_sdk DriverError variants that this
code can produce): CLVM decode failure, wrong canonical mod hash, and
puzzle-execution / condition-decode failure. -/
inductive DriverError where
  | fromClvm : DriverError
  | invalidModHash : DriverError
  | evalFail : DriverError
deriving DecidableEq

/-- Decoding a curry argument as a Bytes32 (exactly 32 bytes). -/
def decodeB32 : Node → Option THash
  | .b32 h => some h
  | _ => none

/-- Decoding a curry argument as an Option Bytes32 (nil, the empty atom,
decodes to None). -/
def decodeOptB32 : Node → Option (Option THash)
  | .b32 h => some (some h)
  | .num 0 => some none
  | _ => none

/-- Decoding a curry argument as a u64 (fails when out of u64 range). -/
def decodeU64 : Node → Option Nat
  | .num v => if v < U64 then some v else none
  | _ => none

/-- Model of layer.rs StreamLayer::parse_puzzle: decompose the two curry
stages, decode both argument tuples (any failure is Ok(None)), then check
the recovered template commitment; a template-shape match with the wrong
canonical mod hash is the distinct error DriverError.invalidModHash. -/
def StreamLayer.parse_puzzle : Node → Except DriverError (Option StreamLayer)
  | .curried2 p1 s2a1 s2a2 =>
    match p1 with
    | .curried3 m a1 a2 a3 =>
      match decodeB32 a1, decodeOptB32 a2, decodeU64 a3,
          decodeB32 s2a1, decodeU64 s2a2 with
      | some recipient, some clawback_ph, some end_time, some _,
          some last_payment_time =>
        if m.treeHash = STREAM_PUZZLE_HASH then
          .ok (some ⟨recipient, clawback_ph, end_time, last_payment_time⟩)
        else .error .invalidModHash
      | _, _, _, _, _ => .ok none
    | _ => .ok none
  | _ => .ok none

/-- Model of the external chia_wallet_sdk CatLayer puzzle parse with an
opaque inner puzzle (CatLayer of NodePtr): recognizes the CAT curry,
decodes CatArgs (decode failure propagates as an error), and returns the
asset id together with the inner puzzle node. -/
def catParseRaw : Node → Except DriverError (Option (THash × Node))
  | .curried3 p a1 a2 a3 =>
    if p.treeHash = CAT_PUZZLE_HASH then
      match decodeB32 a1, decodeB32 a2 with
      | some mh, some asset_id =>
        if mh = CAT_PUZZLE_HASH then .ok (some (asset_id, a3))
        else .error .invalidModHash
      | _, _ => .error .fromClvm
    else .ok none
  | .curried2 p _ _ =>
    if p.treeHash = CAT_PUZZLE_HASH then .error .fromClvm else .ok none
  | _ => .ok none

/-- Model of the external CatLayer puzzle parse specialized to a stream
inner layer (CatLayer of StreamLayer), as invoked first by
from_parent_spend; inner-layer errors propagate. -/
def catParseStream (p : Node) :
    Except DriverError (Option (THash × StreamLayer)) :=
  match catParseRaw p with
  | .error e => .error e
  | .ok none => .ok none
  | .ok (some (asset_id, inner)) =>
    match StreamLayer.parse_puzzle inner with
    | .error e => .error e
    | .ok none => .ok none
    | .ok (some l) => .ok (some (asset_id, l))

/-- One Bytes value of a memo list: a 32-byte atom, an integer-encoded
atom, the empty byte string, or some other byte string. -/
inductive MemoB where
  | b32 (h : THash) : MemoB
  | ints (v : Nat) : MemoB
  | emptyB : MemoB
  | other (tag : Nat) : MemoB
deriving DecidableEq

/-- TryInto Bytes32 on a memo field: succeeds only on exactly 32 bytes. -/
def MemoB.toB32 : MemoB → Option THash
  | .b32 h => some h
  | _ => none

/-- Bytes::is_empty on a memo field. -/
def MemoB.isEmpty : MemoB → Bool
  | .emptyB => true
  | _ => false

/-- clvmr u64_from_bytes: big-endian read of the low 8 bytes, never
failing.  The low 8 bytes of a symbolic 32-byte value or of an opaque byte
string are not determined by the model and are modelled as 0; no claim
depends on that value. -/
def MemoB.toU64 : MemoB → Nat
  | .ints v => v % U64
  | .b32 _ => 0
  | .emptyB => 0
  | .other _ => 0

/-- The memo payload of a create-coin condition: either a decodable list of
Bytes, or bytes on which Vec of Bytes from_clvm fails (which aborts
from_parent_spend with an error). -/
inductive MemosField where
  | decodable (l : List MemoB) : MemosField
  | malformed : MemosField
deriving DecidableEq

/-- A CREATE_COIN condition as seen by the driver. -/
structure CreateCoin where
  puzzle_hash : THash
  amount : Nat
  memos : Option MemosField
deriving DecidableEq

/-- A condition output by running the parent puzzle; only CREATE_COIN is
inspected by the driver. -/
inductive Cond where
  | createCoin (cc : CreateCoin) : Cond
  | other (tag : Nat) : Cond
deriving DecidableEq

/-- The two views of a revealed parent solution that from_parent_spend
consumes: its decoding as a CatSolution (used when the puzzle parses as a
streamed CAT; none models a from_clvm failure), and the condition output of
running the parent puzzle with it (used for launch detection; none models a
run_puzzle / condition-decode failure).  Running the puzzle is an external
collaborator (clvmr run_puzzle), so its result is supplied, not
recomputed. -/
structure SpendData where
  catSol : Option CatSolution
  runOutput : Option (List Cond)

/-- The positional decode of one memo layout (streamed_cat.rs lines
160-205): recipient must be 32 bytes, clawback is None iff the field is
empty and must otherwise be 32 bytes, then last payment time and end
time. -/
def decodeMemos4 (m0 m1 m2 m3 : MemoB) :
    Option (THash × Option THash × Nat × Nat) :=
  match m0.toB32 with
  | none => none
  | some recipient =>
    match (if m1.isEmpty then some none else
        match m1.toB32 with
        | some h => some (some h)
        | none => none) with
    | none => none
    | some clawback_ph => some (recipient, clawback_ph, m2.toU64, m3.toU64)

/-- Memo decoding with both supported widths, positionally: 4 fields
starting at index 0, or 5 fields starting at index 1.  Any other length is
skipped ("continue"), as is any field failure. -/
def decodeMemoFields : List MemoB → Option (THash × Option THash × Nat × Nat)
  | [m0, m1, m2, m3] => decodeMemos4 m0 m1 m2 m3
  | [_, m1, m2, m3, m4] => decodeMemos4 m1 m2 m3 m4
  | _ => none

/-- The launch-detection fold of from_parent_spend over the parent's
conditions: for each CREATE_COIN carrying memos, decode the memo fields,
recompute the expected CAT puzzle hash from them, and accept the created
coin only when its puzzle hash equals the recomputed commitment; malformed
memo bytes abort with an error; a later valid candidate overwrites an
earlier one. -/
def processConds (parent_coin : Coin) (asset_id parent_inner_hash : THash) :
    List Cond → Option StreamedCat → Except DriverError (Option StreamedCat)
  | [], acc => .ok acc
  | .other _ :: rest, acc =>
    processConds parent_coin asset_id parent_inner_hash rest acc
  | .createCoin cc :: rest, acc =>
    match cc.memos with
    | none => processConds parent_coin asset_id parent_inner_hash rest acc
    | some .malformed => .error .fromClvm
    | some (.decodable memos) =>
      match decodeMemoFields memos with
      | none => processConds parent_coin asset_id parent_inner_hash rest acc
      | some (recipient, clawback_ph, last_payment_time, end_time) =>
        if cc.puzzle_hash =
            catCurryTreeHash asset_id
              (StreamLayer.mk recipient clawback_ph end_time
                last_payment_time).puzzle_hash then
          processConds parent_coin asset_id parent_inner_hash rest
            (some (StreamedCat.new
              (Coin.mk parent_coin.coin_id
                (catCurryTreeHash asset_id
                  (StreamLayer.mk recipient clawback_ph end_time
                    last_payment_time).puzzle_hash)
                cc.amount)
              asset_id
              (LineageProof.mk parent_coin.parent_coin_info parent_inner_hash
                parent_coin.amount)
              recipient clawback_ph end_time last_payment_time))
        else processConds parent_coin asset_id parent_inner_hash rest acc

/-- streamed_cat.rs StreamedCat::from_parent_spend: the replay step.  If the
parent puzzle parses as a streamed CAT, decode its CatSolution; a clawback
solution yields the terminal (none, true, to_pay), otherwise the successor
stream is assembled with the wrapped subtraction amount - to_pay and the
solution's payment_time.  If it does not parse, run the puzzle (supplied
output) and scan the created coins for a validated launch. -/
def from_parent_spend (parent_coin : Coin) (parent_puzzle : Node)
    (sol : SpendData) :
    Except DriverError (Option StreamedCat × Bool × Nat) :=
  match catParseStream parent_puzzle with
  | .error e => .error e
  | .ok (some (asset_id, layers_inner)) =>
    match sol.catSol with
    | none => .error .fromClvm
    | some parent_solution =>
      if parent_solution.inner_puzzle_solution.clawback then
        .ok (none, true, parent_solution.inner_puzzle_solution.to_pay)
      else
        .ok (some (StreamedCat.new
          (Coin.mk parent_coin.coin_id
            (catCurryTreeHash asset_id
              (StreamLayer.mk layers_inner.recipient layers_inner.clawback_ph
                layers_inner.end_time
                parent_solution.inner_puzzle_solution.payment_time).puzzle_hash)
            (wsub parent_coin.amount
              parent_solution.inner_puzzle_solution.to_pay))
          asset_id
          (LineageProof.mk parent_coin.parent_coin_info
            layers_inner.puzzle_hash parent_coin.amount)
          layers_inner.recipient layers_inner.clawback_ph
          layers_inner.end_time
          parent_solution.inner_puzzle_solution.payment_time), false, 0)
  | .ok none =>
    match sol.runOutput with
    | none => .error .evalFail
    | some conds =>
      match catParseRaw parent_puzzle with
      | .error e => .error e
      | .ok none => .ok (none, false, 0)
      | .ok (some (asset_id, inner_puzzle)) =>
        match processConds parent_coin asset_id inner_puzzle.treeHash conds
            none with
        | .error e => .error e
        | .ok found => .ok (found, false, 0)

/-- The concrete scenario of spec section 8: amount 1000, start time 1000,
end time 4510. -/
def exampleStream : StreamedCat :=
  StreamedCat.new (Coin.mk (.raw 20) (.raw 21) 1000) (.raw 22)
    (LineageProof.mk (.raw 23) (.raw 24) 1000) (.raw 25) none 4510 1000

/-- A stream whose amount times the elapsed interval overflows u64:
amount 2^63, vesting from time 0 to time 4. -/
def overflowStream : StreamedCat :=
  StreamedCat.new (Coin.mk (.raw 10) (.raw 11) 9223372036854775808) (.raw 12)
    (LineageProof.mk (.raw 13) (.raw 14) 9223372036854775808) (.raw 15)
    none 4 0

/-- A syntactically valid claim CatSolution whose payment_time 9999 exceeds
exampleStream's end_time 4510. -/
def badTimeSolution : CatSolution :=
  { inner_puzzle_solution :=
      { my_amount := 1000, payment_time := 9999, to_pay := 0,
        clawback := false }
    lineage_proof := none
    prev_coin_id := .raw 40
    this_coin_info := Coin.mk (.raw 20) (.raw 21) 1000
    next_coin_proof := CoinProof.mk (.raw 41) (.raw 42) 1000
    prev_subtotal := 0
    extra_delta := 0 }

/-- A syntactically valid claim CatSolution whose to_pay 2000 exceeds
exampleStream's coin amount 1000. -/
def overdrawSolution : CatSolution :=
  { inner_puzzle_solution :=
      { my_amount := 1000, payment_time := 2000, to_pay := 2000,
        clawback := false }
    lineage_proof := none
    prev_coin_id := .raw 40
    this_coin_info := Coin.mk (.raw 20) (.raw 21) 1000
    next_coin_proof := CoinProof.mk (.raw 41) (.raw 42) 1000
    prev_subtotal := 0
    extra_delta := 0 }

/-- A launching parent coin for the launch-detection scenario. -/
def launchParent : Coin := Coin.mk (.raw 30) (.raw 31) 1000

/-- A CAT parent puzzle whose inner puzzle is not a stream layer (e.g. a
token-issuance inner puzzle). -/
def launchPuzzle : Node := catPuzzleNode (.raw 22) (.prog 5)

/-- The stream layer a valid launch memo announces. -/
def launchLayer : StreamLayer := StreamLayer.mk (.raw 25) none 4510 1000

/-- A CREATE_COIN condition with well-formed launch memos whose puzzle hash
equals the commitment recomputed from those memos. -/
def launchCC : CreateCoin :=
  { puzzle_hash := catCurryTreeHash (.raw 22) launchLayer.puzzle_hash
    amount := 1000
    memos := some (.decodable
      [.b32 (.raw 25), .emptyB, .ints 1000, .ints 4510]) }

/-- The solution view of the launch spend: running the parent puzzle
produces exactly the one validated CREATE_COIN. -/
def launchSpendData : SpendData :=
  { catSol := none, runOutput := some [.createCoin launchCC] }

/-- The stream that launch detection reconstructs from launchCC. -/
def launchResult : StreamedCat :=
  StreamedCat.new
    (Coin.mk launchParent.coin_id
      (catCurryTreeHash (.raw 22) launchLayer.puzzle_hash) 1000)
    (.raw 22) (LineageProof.mk (.raw 30) (.raw 5) 1000)
    (.raw 25) none 4510 1000

/-- A stream-template puzzle whose mod program (tag 9) is not the canonical
stream template: both curry stages and both argument tuples are
well-formed, only the commitment is wrong. -/
def wrongModPuzzle : Node :=
  .curried2 (.curried3 (.prog 9) (.b32 (.raw 50)) (.num 0) (.num 4510))
    (.b32 (.raw 51)) (.num 1000)

end Streaming

namespace Streaming

/-- Wrapping u64 subtraction agrees with truncated subtraction when no
underflow occurs. -/
theorem wsub_eq_sub (a b : Nat) (hb : b ≤ a) (ha : a < U64) :
    wsub a b = a - b := by
  simp only [wsub, U64] at *
  omega

/-- Wrapping u64 subtraction of a larger value wraps around 2^64. -/
theorem wsub_wrap (a b : Nat) (hab : a < b) (hb : b < U64) :
    wsub a b = U64 - (b - a) := by
  simp only [wsub, U64] at *
  omega

/-- C1 (amended): for a u64-well-formed stream with
last_payment_time < at_time <= end_time whose product
coin.amount * (at_time - last_payment_time) fits in u64,
amount_to_be_paid is exactly the floor multiply-then-divide formula of the
spec. -/
theorem C1_vesting_formula_exact (s : StreamedCat) (t : Nat) (hwf : s.WF)
    (h1 : s.last_payment_time < t) (h2 : t ≤ s.end_time)
    (hov : s.coin.amount * (t - s.last_payment_time) < U64) :
    s.amount_to_be_paid t
      = specVestingFormula s.coin.amount s.last_payment_time s.end_time t := by
  obtain ⟨hwa, hwe, hwl⟩ := hwf
  have htU : t < U64 := lt_of_le_of_lt h2 hwe
  unfold StreamedCat.amount_to_be_paid specVestingFormula
  rw [wsub_eq_sub _ _ (le_of_lt h1) htU,
    wsub_eq_sub _ _ (le_of_lt (lt_of_lt_of_le h1 h2)) hwe,
    Nat.mod_eq_of_lt hov]

/-- C1 counterexample: for the stream with amount 2^63 vesting from time 0
to time 4, claiming at time 2 satisfies the claim's hypotheses but the u64
multiplication wraps, so amount_to_be_paid (0) differs from the exact floor
formula (2^62). -/
theorem C1_counterexample :
    overflowStream.last_payment_time < overflowStream.end_time ∧
    overflowStream.last_payment_time < 2 ∧ 2 ≤ overflowStream.end_time ∧
    overflowStream.amount_to_be_paid 2
      ≠ specVestingFormula overflowStream.coin.amount
          overflowStream.last_payment_time overflowStream.end_time 2 := by
  decide

/-- C1 witness: the concrete spec scenario (amount 1000, vesting 1000 to
4510, claim at 2000) satisfies the amended hypotheses, equals the exact
formula, and yields 284. -/
theorem C1_witness :
    (exampleStream.WF ∧ exampleStream.last_payment_time < 2000 ∧
      2000 ≤ exampleStream.end_time ∧
      exampleStream.coin.amount * (2000 - exampleStream.last_payment_time)
        < U64) ∧
    exampleStream.amount_to_be_paid 2000
      = specVestingFormula exampleStream.coin.amount
          exampleStream.last_payment_time exampleStream.end_time 2000 ∧
    exampleStream.amount_to_be_paid 2000 = 284 :=
  ⟨⟨⟨by decide, by decide, by decide⟩, by decide, by decide, by decide⟩,
   C1_vesting_formula_exact exampleStream 2000
     ⟨by decide, by decide, by decide⟩ (by decide) (by decide) (by decide),
   by decide⟩

/-- C2: at at_time = end_time the full remaining amount is paid out exactly,
with no rounding residue, whenever the product fits in u64. -/
theorem C2_full_payout (s : StreamedCat) (hwf : s.WF)
    (h : s.last_payment_time < s.end_time)
    (hov : s.coin.amount * (s.end_time - s.last_payment_time) < U64) :
    s.amount_to_be_paid s.end_time = s.coin.amount := by
  obtain ⟨hwa, hwe, hwl⟩ := hwf
  unfold StreamedCat.amount_to_be_paid
  rw [wsub_eq_sub _ _ (le_of_lt h) hwe, Nat.mod_eq_of_lt hov]
  exact Nat.mul_div_cancel _ (by omega)

/-- C2 witness: the spec scenario pays out exactly its 1000 units at its end
time 4510. -/
theorem C2_witness :
    (exampleStream.WF ∧
      exampleStream.last_payment_time < exampleStream.end_time ∧
      exampleStream.coin.amount
        * (exampleStream.end_time - exampleStream.last_payment_time)
        < U64) ∧
    exampleStream.amount_to_be_paid exampleStream.end_time
      = exampleStream.coin.amount ∧
    exampleStream.amount_to_be_paid 4510 = 1000 :=
  ⟨⟨⟨by decide, by decide, by decide⟩, by decide, by decide⟩,
   C2_full_payout exampleStream ⟨by decide, by decide, by decide⟩
     (by decide) (by decide),
   by decide⟩

end Streaming

namespace Streaming

/-- C6 counterexample: for the spec scenario stream, amount_to_be_paid at
time 10000 (past end_time 4510) yields 2564, not the end_time value 1000 —
the function itself does not saturate. -/
theorem C6_counterexample :
    exampleStream.last_payment_time < exampleStream.end_time ∧
    exampleStream.end_time < 10000 ∧
    exampleStream.amount_to_be_paid 10000
      ≠ exampleStream.amount_to_be_paid exampleStream.end_time := by
  decide

/-- C6 (amended): amount_to_be_paid does not saturate at end_time: past
end_time it is at least the full remaining amount (and in general larger).
The saturation policy lives in the caller: the main.rs claim command clamps
its claim time to end_time before invoking the formula. -/
theorem C6_no_saturation (s : StreamedCat) (t ts : Nat) (hwf : s.WF)
    (h : s.last_payment_time < s.end_time) (ht : s.end_time < t)
    (htU : t < U64)
    (hov : s.coin.amount * (t - s.last_payment_time) < U64) :
    s.coin.amount ≤ s.amount_to_be_paid t ∧
    clampedClaimTime ts s.end_time ≤ s.end_time := by
  obtain ⟨hwa, hwe, hwl⟩ := hwf
  constructor
  · unfold StreamedCat.amount_to_be_paid
    rw [wsub_eq_sub _ _ (le_of_lt (lt_trans h ht)) htU,
      wsub_eq_sub _ _ (le_of_lt h) hwe, Nat.mod_eq_of_lt hov]
    calc s.coin.amount
        = s.coin.amount * (s.end_time - s.last_payment_time)
            / (s.end_time - s.last_payment_time) :=
          (Nat.mul_div_cancel _ (by omega)).symm
      _ ≤ s.coin.amount * (t - s.last_payment_time)
            / (s.end_time - s.last_payment_time) :=
          Nat.div_le_div_right (Nat.mul_le_mul_left _ (by omega))
  · unfold clampedClaimTime
    split <;> omega

/-- C6 witness: at time 10000 the spec scenario stream is past its end time
and the formula returns at least the full 1000 (concretely 2564), while the
CLI clamp keeps the passed time at or below end_time. -/
theorem C6_witness :
    (exampleStream.WF ∧
      exampleStream.last_payment_time < exampleStream.end_time ∧
      exampleStream.end_time < 10000 ∧ 10000 < U64 ∧
      exampleStream.coin.amount
        * (10000 - exampleStream.last_payment_time) < U64) ∧
    (exampleStream.coin.amount ≤ exampleStream.amount_to_be_paid 10000 ∧
      clampedClaimTime 99999 exampleStream.end_time
        ≤ exampleStream.end_time) ∧
    exampleStream.amount_to_be_paid 10000 = 2564 :=
  ⟨⟨⟨by decide, by decide, by decide⟩, by decide, by decide, by decide,
     by decide⟩,
   C6_no_saturation exampleStream 10000 99999
     ⟨by decide, by decide, by decide⟩ (by decide) (by decide) (by decide)
     (by decide),
   by decide⟩

/-- C7 counterexample: calling amount_to_be_paid with at_time equal to
last_payment_time is not rejected: it silently returns 0. -/
theorem C7_counterexample :
    exampleStream.amount_to_be_paid exampleStream.last_payment_time = 0 := by
  decide

/-- C7 (amended): amount_to_be_paid performs no validation of at_time: at
at_time = last_payment_time it silently returns 0, and for
at_time < last_payment_time the u64 subtraction wraps modulo 2^64 and the
wrapped value feeds the formula; no distinct error outcome exists. -/
theorem C7_no_rejection (s : StreamedCat) (t : Nat) (hwf : s.WF)
    (hle : t ≤ s.last_payment_time) :
    (t = s.last_payment_time → s.amount_to_be_paid t = 0) ∧
    (t < s.last_payment_time →
      s.amount_to_be_paid t
        = s.coin.amount * (U64 - (s.last_payment_time - t)) % U64
          / wsub s.end_time s.last_payment_time) := by
  obtain ⟨hwa, hwe, hwl⟩ := hwf
  constructor
  · rintro rfl
    unfold StreamedCat.amount_to_be_paid
    have h0 : wsub s.last_payment_time s.last_payment_time = 0 := by
      simp only [wsub, U64]
      omega
    simp [h0]
  · intro hlt
    unfold StreamedCat.amount_to_be_paid
    rw [wsub_wrap _ _ hlt hwl]

/-- C7 witness: for the spec scenario stream (last_payment_time 1000),
calling at time 1000 satisfies the hypotheses and silently yields 0. -/
theorem C7_witness :
    (exampleStream.WF ∧ 1000 ≤ exampleStream.last_payment_time) ∧
    ((1000 = exampleStream.last_payment_time →
        exampleStream.amount_to_be_paid 1000 = 0) ∧
     (1000 < exampleStream.last_payment_time →
        exampleStream.amount_to_be_paid 1000
          = exampleStream.coin.amount
              * (U64 - (exampleStream.last_payment_time - 1000)) % U64
            / wsub exampleStream.end_time exampleStream.last_payment_time)) ∧
    exampleStream.amount_to_be_paid 1000 = 0 :=
  ⟨⟨⟨by decide, by decide, by decide⟩, by decide⟩,
   C7_no_rejection exampleStream 1000 ⟨by decide, by decide, by decide⟩
     (by decide),
   by decide⟩

end Streaming

namespace Streaming

/-- C8: a revealed puzzle matching the two-stage curried template shape
(both curry levels and both argument tuples parse) whose recovered template
commitment differs from the canonical STREAM_PUZZLE_HASH makes parse_puzzle
return the distinct invalidModHash error — never the no-match outcome and
never a parsed stream layer. -/
theorem C8_wrong_commitment_is_error (m a1 a2 a3 b1 b2 : Node)
    (r : THash) (cb : Option THash) (et : Nat) (sh : THash) (lpt : Nat)
    (h1 : decodeB32 a1 = some r) (h2 : decodeOptB32 a2 = some cb)
    (h3 : decodeU64 a3 = some et) (h4 : decodeB32 b1 = some sh)
    (h5 : decodeU64 b2 = some lpt)
    (hm : m.treeHash ≠ STREAM_PUZZLE_HASH) :
    StreamLayer.parse_puzzle (.curried2 (.curried3 m a1 a2 a3) b1 b2)
      = .error .invalidModHash ∧
    StreamLayer.parse_puzzle (.curried2 (.curried3 m a1 a2 a3) b1 b2)
      ≠ .ok none ∧
    ∀ l, StreamLayer.parse_puzzle (.curried2 (.curried3 m a1 a2 a3) b1 b2)
      ≠ .ok (some l) := by
  have he : StreamLayer.parse_puzzle (.curried2 (.curried3 m a1 a2 a3) b1 b2)
      = .error .invalidModHash := by
    simp [StreamLayer.parse_puzzle, h1, h2, h3, h4, h5, hm]
  exact ⟨he, by simp [he], fun l => by simp [he]⟩

/-- C8 witness: a concrete well-shaped puzzle over a non-canonical template
program (tag 9) is rejected with invalidModHash. -/
theorem C8_witness :
    (decodeB32 (Node.b32 (.raw 50)) = some (.raw 50) ∧
      decodeOptB32 (Node.num 0) = some none ∧
      decodeU64 (Node.num 4510) = some 4510 ∧
      decodeB32 (Node.b32 (.raw 51)) = some (.raw 51) ∧
      decodeU64 (Node.num 1000) = some 1000 ∧
      (Node.prog 9).treeHash ≠ STREAM_PUZZLE_HASH) ∧
    (StreamLayer.parse_puzzle wrongModPuzzle = .error .invalidModHash ∧
      StreamLayer.parse_puzzle wrongModPuzzle ≠ .ok none ∧
      ∀ l, StreamLayer.parse_puzzle wrongModPuzzle ≠ .ok (some l)) :=
  ⟨⟨by decide, by decide, by decide, by decide, by decide, by decide⟩,
   C8_wrong_commitment_is_error (.prog 9) (.b32 (.raw 50)) (.num 0)
     (.num 4510) (.b32 (.raw 51)) (.num 1000) (.raw 50) none 4510 (.raw 51)
     1000 (by decide) (by decide) (by decide) (by decide) (by decide)
     (by decide)⟩

/-- C4: a spend whose puzzle parses as the curried stream template and whose
decoded solution sets clawback yields no successor stream: the result is
exactly (none, true, to_pay). -/
theorem C4_clawback_terminal (parent_coin : Coin) (p : Node) (sd : SpendData)
    (aid : THash) (l : StreamLayer) (cs : CatSolution)
    (hp : catParseStream p = .ok (some (aid, l)))
    (hs : sd.catSol = some cs)
    (hcb : cs.inner_puzzle_solution.clawback = true) :
    from_parent_spend parent_coin p sd
      = .ok (none, true, cs.inner_puzzle_solution.to_pay) := by
  simp [from_parent_spend, hp, hs, hcb]

/-- C4 witness: replaying the clawback spend of the spec scenario stream at
time 2000 yields (none, true, 284) — no successor stream. -/
theorem C4_witness :
    (catParseStream exampleStream.construct_puzzle
        = .ok (some (.raw 22, exampleStream.layer)) ∧
      (exampleStream.construct_solution 2000
          true).inner_puzzle_solution.clawback = true) ∧
    from_parent_spend exampleStream.coin exampleStream.construct_puzzle
        ⟨some (exampleStream.construct_solution 2000 true), none⟩
      = .ok (none, true,
          (exampleStream.construct_solution 2000
            true).inner_puzzle_solution.to_pay) ∧
    (exampleStream.construct_solution 2000 true).inner_puzzle_solution.to_pay
      = 284 :=
  ⟨⟨rfl, rfl⟩,
   C4_clawback_terminal exampleStream.coin exampleStream.construct_puzzle
     ⟨some (exampleStream.construct_solution 2000 true), none⟩ (.raw 22)
     exampleStream.layer (exampleStream.construct_solution 2000 true) rfl rfl
     rfl,
   by decide⟩

end Streaming

namespace Streaming

/-- For a valid claim window the payment never exceeds the remaining coin
amount, even under the wrapping product. -/
theorem amount_to_be_paid_le (s : StreamedCat) (T : Nat)
    (_hwa : s.coin.amount < U64) (hwe : s.end_time < U64)
    (h1 : s.last_payment_time < T) (h2 : T ≤ s.end_time) :
    s.amount_to_be_paid T ≤ s.coin.amount := by
  unfold StreamedCat.amount_to_be_paid
  rw [wsub_eq_sub _ _ (le_of_lt h1) (lt_of_le_of_lt h2 hwe),
    wsub_eq_sub _ _ (le_of_lt (lt_of_lt_of_le h1 h2)) hwe]
  calc s.coin.amount * (T - s.last_payment_time) % U64
        / (s.end_time - s.last_payment_time)
      ≤ s.coin.amount * (T - s.last_payment_time)
          / (s.end_time - s.last_payment_time) :=
        Nat.div_le_div_right (Nat.mod_le _ _)
    _ ≤ s.coin.amount * (s.end_time - s.last_payment_time)
          / (s.end_time - s.last_payment_time) :=
        Nat.div_le_div_right (Nat.mul_le_mul_left _ (by omega))
    _ = s.coin.amount := Nat.mul_div_cancel _ (by omega)

/-- Parsing the puzzle built by construct_puzzle recovers the asset id and
the stream layer (parse / construct round trip). -/
theorem catParseStream_construct (s : StreamedCat)
    (hwe : s.end_time < U64) (hwl : s.last_payment_time < U64) :
    catParseStream s.construct_puzzle = .ok (some (s.asset_id, s.layer)) := by
  cases hcb : s.clawback_ph with
  | none =>
    simp [catParseStream, catParseRaw, StreamedCat.construct_puzzle,
      catPuzzleNode, streamPuzzleNode, StreamLayer.parse_puzzle, decodeB32,
      decodeOptB32, decodeU64, optNode, Node.treeHash, StreamedCat.layer,
      CAT_PUZZLE_HASH, STREAM_PUZZLE_HASH, hcb, hwe, hwl]
  | some c =>
    simp [catParseStream, catParseRaw, StreamedCat.construct_puzzle,
      catPuzzleNode, streamPuzzleNode, StreamLayer.parse_puzzle, decodeB32,
      decodeOptB32, decodeU64, optNode, Node.treeHash, StreamedCat.layer,
      CAT_PUZZLE_HASH, STREAM_PUZZLE_HASH, hcb, hwe, hwl]

/-- C3: replaying the claim spend built from a stream S at a valid claim
time T (via from_parent_spend on S.coin, the constructed puzzle, and the
non-clawback constructed solution) yields a successor with amount
S.coin.amount - amount_to_be_paid(S, T), last_payment_time T, and the same
recipient, clawback target, end time and asset id. -/
theorem C3_replay_roundtrip (s : StreamedCat) (T : Nat) (hwf : s.WF)
    (h1 : s.last_payment_time < T) (h2 : T ≤ s.end_time) :
    ∃ s', from_parent_spend s.coin s.construct_puzzle
        ⟨some (s.construct_solution T false), none⟩
        = .ok (some s', false, 0) ∧
      s'.coin.amount = s.coin.amount - s.amount_to_be_paid T ∧
      s'.last_payment_time = T ∧
      s'.recipient = s.recipient ∧ s'.clawback_ph = s.clawback_ph ∧
      s'.end_time = s.end_time ∧ s'.asset_id = s.asset_id := by
  obtain ⟨hwa, hwe, hwl⟩ := hwf
  have hparse := catParseStream_construct s hwe hwl
  have hpaid : s.amount_to_be_paid T ≤ s.coin.amount :=
    amount_to_be_paid_le s T hwa hwe h1 h2
  refine ⟨StreamedCat.new
      (Coin.mk s.coin.coin_id
        (catCurryTreeHash s.asset_id
          (StreamLayer.mk s.recipient s.clawback_ph s.end_time
            T).puzzle_hash)
        (s.coin.amount - s.amount_to_be_paid T))
      s.asset_id
      (LineageProof.mk s.coin.parent_coin_info s.layer.puzzle_hash
        s.coin.amount)
      s.recipient s.clawback_ph s.end_time T,
    ?_, rfl, rfl, rfl, rfl, rfl, rfl⟩
  simp only [from_parent_spend, hparse, StreamedCat.construct_solution]
  rw [wsub_eq_sub _ _ hpaid hwa]
  simp [StreamedCat.layer]

end Streaming

namespace Streaming

/-- C3 witness: replaying the spec-scenario claim of 284 out of 1000 at
time 2000 yields a successor with amount 716 and last_payment_time 2000. -/
theorem C3_witness :
    (exampleStream.WF ∧ exampleStream.last_payment_time < 2000 ∧
      2000 ≤ exampleStream.end_time) ∧
    (∃ s', from_parent_spend exampleStream.coin
        exampleStream.construct_puzzle
        ⟨some (exampleStream.construct_solution 2000 false), none⟩
        = .ok (some s', false, 0) ∧
      s'.coin.amount
        = exampleStream.coin.amount - exampleStream.amount_to_be_paid 2000 ∧
      s'.last_payment_time = 2000 ∧
      s'.recipient = exampleStream.recipient ∧
      s'.clawback_ph = exampleStream.clawback_ph ∧
      s'.end_time = exampleStream.end_time ∧
      s'.asset_id = exampleStream.asset_id) ∧
    exampleStream.amount_to_be_paid 2000 = 284 ∧
    exampleStream.coin.amount - exampleStream.amount_to_be_paid 2000 = 716 :=
  ⟨⟨⟨by decide, by decide, by decide⟩, by decide, by decide⟩,
   C3_replay_roundtrip exampleStream 2000 ⟨by decide, by decide, by decide⟩
     (by decide) (by decide),
   by decide, by decide⟩

/-- C9 counterexample: from_parent_spend accepts a syntactically valid
claim solution whose payment_time 9999 is past the stream's end_time 4510
and returns a successor violating last_payment_time < end_time. -/
theorem C9_counterexample :
    exampleStream.last_payment_time < exampleStream.end_time ∧
    badTimeSolution.inner_puzzle_solution.clawback = false ∧
    ∃ s', from_parent_spend exampleStream.coin exampleStream.construct_puzzle
        ⟨some badTimeSolution, none⟩ = .ok (some s', false, 0) ∧
      ¬ s'.last_payment_time < s'.end_time :=
  ⟨by decide, by decide, _, rfl, by decide⟩

/-- C9 (amended): from_parent_spend does not validate the solution's
payment_time against end_time; the successor of an accepted claim spend
satisfies the invariant last_payment_time < end_time exactly when the
spend's payment_time is below the stream's end_time. -/
theorem C9_successor_invariant (parent_coin : Coin) (p : Node)
    (sd : SpendData) (aid : THash) (l : StreamLayer) (cs : CatSolution)
    (hp : catParseStream p = .ok (some (aid, l)))
    (hs : sd.catSol = some cs)
    (hcb : cs.inner_puzzle_solution.clawback = false)
    (hT : cs.inner_puzzle_solution.payment_time < l.end_time) :
    ∃ s', from_parent_spend parent_coin p sd = .ok (some s', false, 0) ∧
      s'.last_payment_time < s'.end_time := by
  refine ⟨StreamedCat.new
      (Coin.mk parent_coin.coin_id
        (catCurryTreeHash aid
          (StreamLayer.mk l.recipient l.clawback_ph l.end_time
            cs.inner_puzzle_solution.payment_time).puzzle_hash)
        (wsub parent_coin.amount cs.inner_puzzle_solution.to_pay))
      aid
      (LineageProof.mk parent_coin.parent_coin_info l.puzzle_hash
        parent_coin.amount)
      l.recipient l.clawback_ph l.end_time
      cs.inner_puzzle_solution.payment_time, ?_, hT⟩
  simp [from_parent_spend, hp, hs, hcb]

/-- C9 witness: the spec-scenario claim at time 2000 < 4510 produces a
successor that does satisfy the invariant. -/
theorem C9_witness :
    (catParseStream exampleStream.construct_puzzle
        = .ok (some (.raw 22, exampleStream.layer)) ∧
      (exampleStream.construct_solution 2000
          false).inner_puzzle_solution.clawback = false ∧
      (exampleStream.construct_solution 2000
          false).inner_puzzle_solution.payment_time
        < exampleStream.layer.end_time) ∧
    ∃ s', from_parent_spend exampleStream.coin
        exampleStream.construct_puzzle
        ⟨some (exampleStream.construct_solution 2000 false), none⟩
        = .ok (some s', false, 0) ∧
      s'.last_payment_time < s'.end_time :=
  ⟨⟨rfl, rfl, by decide⟩,
   C9_successor_invariant exampleStream.coin exampleStream.construct_puzzle
     ⟨some (exampleStream.construct_solution 2000 false), none⟩ (.raw 22)
     exampleStream.layer (exampleStream.construct_solution 2000 false) rfl
     rfl rfl (by decide)⟩

/-- C10 counterexample: a parseable claim solution with to_pay 2000 against
a coin of amount 1000 is accepted and the successor amount is the wrapped
u64 value 2^64 - 1000, larger than the parent amount. -/
theorem C10_counterexample :
    overdrawSolution.inner_puzzle_solution.to_pay
      > exampleStream.coin.amount ∧
    ∃ s', from_parent_spend exampleStream.coin exampleStream.construct_puzzle
        ⟨some overdrawSolution, none⟩ = .ok (some s', false, 0) ∧
      s'.coin.amount = U64 - 1000 ∧
      exampleStream.coin.amount < s'.coin.amount :=
  ⟨by decide, _, rfl, by decide, by decide⟩

/-- C10 (amended): from_parent_spend subtracts to_pay from the spent
amount with wrapping u64 semantics and no explicit check; the successor
amount equals spent_coin.amount - to_pay exactly when
to_pay <= spent_coin.amount. -/
theorem C10_amount_no_wrap (parent_coin : Coin) (p : Node) (sd : SpendData)
    (aid : THash) (l : StreamLayer) (cs : CatSolution)
    (hp : catParseStream p = .ok (some (aid, l)))
    (hs : sd.catSol = some cs)
    (hcb : cs.inner_puzzle_solution.clawback = false)
    (hamt : parent_coin.amount < U64)
    (hle : cs.inner_puzzle_solution.to_pay ≤ parent_coin.amount) :
    ∃ s', from_parent_spend parent_coin p sd = .ok (some s', false, 0) ∧
      s'.coin.amount
        = parent_coin.amount - cs.inner_puzzle_solution.to_pay := by
  refine ⟨StreamedCat.new
      (Coin.mk parent_coin.coin_id
        (catCurryTreeHash aid
          (StreamLayer.mk l.recipient l.clawback_ph l.end_time
            cs.inner_puzzle_solution.payment_time).puzzle_hash)
        (wsub parent_coin.amount cs.inner_puzzle_solution.to_pay))
      aid
      (LineageProof.mk parent_coin.parent_coin_info l.puzzle_hash
        parent_coin.amount)
      l.recipient l.clawback_ph l.end_time
      cs.inner_puzzle_solution.payment_time,
    ?_, wsub_eq_sub _ _ hle hamt⟩
  simp [from_parent_spend, hp, hs, hcb]

/-- C10 witness: the spec-scenario claim (to_pay 284 against amount 1000)
produces the unwrapped successor amount 716. -/
theorem C10_witness :
    (catParseStream exampleStream.construct_puzzle
        = .ok (some (.raw 22, exampleStream.layer)) ∧
      (exampleStream.construct_solution 2000
          false).inner_puzzle_solution.clawback = false ∧
      exampleStream.coin.amount < U64 ∧
      (exampleStream.construct_solution 2000
          false).inner_puzzle_solution.to_pay
        ≤ exampleStream.coin.amount) ∧
    (∃ s', from_parent_spend exampleStream.coin
        exampleStream.construct_puzzle
        ⟨some (exampleStream.construct_solution 2000 false), none⟩
        = .ok (some s', false, 0) ∧
      s'.coin.amount
        = exampleStream.coin.amount
          - (exampleStream.construct_solution 2000
              false).inner_puzzle_solution.to_pay) ∧
    exampleStream.coin.amount
      - (exampleStream.construct_solution 2000
          false).inner_puzzle_solution.to_pay = 716 :=
  ⟨⟨rfl, rfl, by decide, by decide⟩,
   C10_amount_no_wrap exampleStream.coin exampleStream.construct_puzzle
     ⟨some (exampleStream.construct_solution 2000 false), none⟩ (.raw 22)
     exampleStream.layer (exampleStream.construct_solution 2000 false) rfl
     rfl rfl (by decide) (by decide),
   by decide⟩

end Streaming

namespace Streaming

/-- Soundness of the launch scan: any stream it returns was overwritten
into the accumulator by some CREATE_COIN condition whose decodable memo
fields recompute exactly to the created coin's puzzle hash, and the stream
is assembled from those decoded fields. -/
theorem processConds_sound (pc : Coin) (aid pih : THash) :
    ∀ (conds : List Cond) (acc : Option StreamedCat) (S : StreamedCat),
      processConds pc aid pih conds acc = .ok (some S) →
      acc = some S ∨
      ∃ cc, Cond.createCoin cc ∈ conds ∧
        ∃ memos r cb lpt et,
          cc.memos = some (.decodable memos) ∧
          decodeMemoFields memos = some (r, cb, lpt, et) ∧
          cc.puzzle_hash
            = catCurryTreeHash aid (StreamLayer.mk r cb et lpt).puzzle_hash ∧
          S = StreamedCat.new (Coin.mk pc.coin_id cc.puzzle_hash cc.amount)
                aid (LineageProof.mk pc.parent_coin_info pih pc.amount)
                r cb et lpt := by
  intro conds
  induction conds with
  | nil =>
    intro acc S h
    left
    simpa [processConds] using h
  | cons c rest ih =>
    intro acc S h
    cases c with
    | other t =>
      simp only [processConds] at h
      rcases ih acc S h with h' | ⟨cc, hmem, hrest⟩
      · exact Or.inl h'
      · exact Or.inr ⟨cc, List.mem_cons_of_mem _ hmem, hrest⟩
    | createCoin cc =>
      simp only [processConds] at h
      rcases hm : cc.memos with _ | mf
      · simp only [hm] at h
        rcases ih acc S h with h' | ⟨cc', hmem, hrest⟩
        · exact Or.inl h'
        · exact Or.inr ⟨cc', List.mem_cons_of_mem _ hmem, hrest⟩
      · cases mf with
        | malformed =>
          simp only [hm] at h
          simp at h
        | decodable memos =>
          simp only [hm] at h
          rcases hd : decodeMemoFields memos with _ | ⟨r, cb, lpt, et⟩
          · simp only [hd] at h
            rcases ih acc S h with h' | ⟨cc', hmem, hrest⟩
            · exact Or.inl h'
            · exact Or.inr ⟨cc', List.mem_cons_of_mem _ hmem, hrest⟩
          · simp only [hd] at h
            by_cases hph : cc.puzzle_hash
                = catCurryTreeHash aid
                    (StreamLayer.mk r cb et lpt).puzzle_hash
            · rw [if_pos hph] at h
              rcases ih _ S h with h' | ⟨cc', hmem, hrest⟩
              · right
                refine ⟨cc, List.mem_cons_self _ _, memos, r, cb, lpt, et,
                  hm, hd, hph, ?_⟩
                injection h' with h''
                rw [← h'', hph]
              · exact Or.inr ⟨cc', List.mem_cons_of_mem _ hmem, hrest⟩
            · rw [if_neg hph] at h
              rcases ih acc S h with h' | ⟨cc', hmem, hrest⟩
              · exact Or.inl h'
              · exact Or.inr ⟨cc', List.mem_cons_of_mem _ hmem, hrest⟩

/-- C5: on the launch path, a stream is returned only when some CREATE_COIN
of the parent's output carries decodable memo fields whose recomputed
two-stage commitment equals that created coin's actual puzzle hash; the
returned stream's coin is exactly that created coin, so forged memos whose
hash does not match the recomputation are never returned. -/
theorem C5_launch_validation (parent_coin : Coin) (p : Node) (sd : SpendData)
    (S : StreamedCat) (b : Bool) (n : Nat)
    (hlaunch : catParseStream p = .ok none)
    (h : from_parent_spend parent_coin p sd = .ok (some S, b, n)) :
    S.coin.puzzle_hash
      = catCurryTreeHash S.asset_id
          (StreamLayer.mk S.recipient S.clawback_ph S.end_time
            S.last_payment_time).puzzle_hash ∧
    ∃ conds, sd.runOutput = some conds ∧
      ∃ cc, Cond.createCoin cc ∈ conds ∧
        cc.puzzle_hash = S.coin.puzzle_hash ∧ cc.amount = S.coin.amount ∧
        ∃ memos, cc.memos = some (.decodable memos) ∧
          decodeMemoFields memos
            = some (S.recipient, S.clawback_ph, S.last_payment_time,
                S.end_time) := by
  simp only [from_parent_spend, hlaunch] at h
  rcases hro : sd.runOutput with _ | conds
  · simp only [hro] at h
    simp at h
  · simp only [hro] at h
    rcases hpr : catParseRaw p with e | o
    · simp only [hpr] at h
      simp at h
    · rcases o with _ | ⟨aid, inner⟩
      · simp only [hpr] at h
        simp at h
      · simp only [hpr] at h
        rcases hpc : processConds parent_coin aid inner.treeHash conds none
          with e' | found
        · simp only [hpc] at h
          simp at h
        · simp only [hpc, Except.ok.injEq, Prod.mk.injEq] at h
          obtain ⟨hfound, hb, hn⟩ := h
          rw [hfound] at hpc
          rcases processConds_sound parent_coin aid inner.treeHash conds
              none S hpc with hl | ⟨cc, hmem, memos, r, cb, lpt, et, hm, hd,
              hph, hS⟩
          · exact Option.noConfusion hl
          · subst hS
            exact ⟨hph, conds, rfl, cc, hmem, rfl, rfl, memos, hm, hd⟩

end Streaming

namespace Streaming

/-- C5 witness: a concrete launch spend whose single CREATE_COIN carries
well-formed memos and a matching recomputed commitment is accepted, and the
theorem's guarantees hold for the reconstructed stream. -/
theorem C5_witness :
    (catParseStream launchPuzzle = .ok none ∧
      from_parent_spend launchParent launchPuzzle launchSpendData
        = .ok (some launchResult, false, 0)) ∧
    (launchResult.coin.puzzle_hash
        = catCurryTreeHash launchResult.asset_id
            (StreamLayer.mk launchResult.recipient launchResult.clawback_ph
              launchResult.end_time
              launchResult.last_payment_time).puzzle_hash ∧
      ∃ conds, launchSpendData.runOutput = some conds ∧
        ∃ cc, Cond.createCoin cc ∈ conds ∧
          cc.puzzle_hash = launchResult.coin.puzzle_hash ∧
          cc.amount = launchResult.coin.amount ∧
          ∃ memos, cc.memos = some (.decodable memos) ∧
            decodeMemoFields memos
              = some (launchResult.recipient, launchResult.clawback_ph,
                  launchResult.last_payment_time, launchResult.end_time)) :=
  ⟨⟨rfl, rfl⟩,
   C5_launch_validation launchParent launchPuzzle launchSpendData
     launchResult false 0 rfl rfl⟩

end Streaming
